import Mathlib

/-!
Verification of the pub-command module (`kmibot/modules/pub/commands.py`).

The module is embedded shallowly:

* `DateTime` models a Python `datetime` in the configured time zone as days
  since an epoch Monday (so `day % 7` is Python's `date.weekday()`) together
  with the time of day.  Python guarantees `hour < 24`, `minute < 60`,
  `second < 60`; theorems that need those bounds take them as hypotheses.
* Pure helpers (`_get_next_pub_time`, `_event_is_pub`, `_get_next_event`,
  `_create_pub_event`, `_get_pub_buttons_view`) become pure functions.
* The coroutine command handlers (`info`, `next`, `now`) become functions
  producing the list of externally visible actions they perform, in order.
  The outcome of the interactive venue selection (`_choose_pub` awaiting the
  external `PubView` widget) is an explicit parameter: `some pub` when the
  user picks a venue, `none` when the widget times out or the interaction is
  invalidated (in the source this raises and the command aborts).
  A failed `assert` stops the handler; it is recorded as `assertionFailed`.
-/

/-- Model of a timezone-local Python `datetime`: `day` counts days from an
epoch Monday, so `day % 7` is `date.weekday()` (0 = Monday .. 6 = Sunday). -/
structure DateTime where
  day : Nat
  hour : Nat
  minute : Nat
  second : Nat
deriving DecidableEq, Repr

/-- Seconds elapsed since the epoch; a strictly monotone coordinate for
comparing valid datetimes. -/
def DateTime.toSeconds (d : DateTime) : Nat :=
  ((d.day * 24 + d.hour) * 60 + d.minute) * 60 + d.second

/-- Python `timedelta(hours=k)` addition, normalising overflow into days. -/
def DateTime.addHours (d : DateTime) (k : Nat) : DateTime :=
  ⟨d.day + (d.hour + k) / 24, (d.hour + k) % 24, d.minute, d.second⟩

/-- Python `timedelta(seconds=k)` addition via the seconds coordinate. -/
def DateTime.addSeconds (d : DateTime) (k : Nat) : DateTime :=
  ⟨(d.toSeconds + k) / 86400,
   (d.toSeconds + k) % 86400 / 3600,
   (d.toSeconds + k) % 3600 / 60,
   (d.toSeconds + k) % 60⟩

/-- Stand-in for Python's `str(datetime)` rendering used only inside the
venue-selection prompt text of `/pub next`. -/
def DateTime.render (d : DateTime) : String :=
  toString d.day ++ "d " ++ toString d.hour ++ ":" ++ toString d.minute
    ++ ":" ++ toString d.second

/-- A configured venue (`PubInfo` in `kmibot.config`): `fake` is the optional
joke-user identifier marking venues that must not create a real event. -/
structure PubInfo where
  name : String
  emoji : String
  map_url : String
  menu_url : Option String
  fake : Option String
deriving DecidableEq, Repr

/-- The pub section of the bot configuration (`config.pub`). -/
structure PubConfig where
  weekday : Nat
  hour : Nat
  minute : Nat
  channel_id : Nat
  description : String
  pubs : List PubInfo
deriving DecidableEq, Repr

/-- An existing platform scheduled event, as read from the guild. -/
structure ScheduledEvent where
  name : String
  start_time : DateTime
  location : String
deriving DecidableEq, Repr

/-- Checks whether `pat` occurs at the head of `l` (list version of string
startswith, used to build substring containment). -/
def leadsWith : List Char → List Char → Bool
  | [], _ => true
  | _ :: _, [] => false
  | a :: as, b :: bs => a == b && leadsWith as bs

/-- Python's substring containment `needle in haystack` on strings, as a scan
over the character list. -/
def hasSub (needle : List Char) : List Char → Bool
  | [] => leadsWith needle []
  | c :: rest => leadsWith needle (c :: rest) || hasSub needle rest

/-- Source `PubCommand._event_is_pub`: the event name contains "Pub". -/
def event_is_pub (e : ScheduledEvent) : Bool :=
  hasSub "Pub".toList e.name.toList

/-- Source `PubCommand._get_next_pub_time`.  `now` is the sampled
`datetime.now(tz=...)`; `today = now.date()` is its `day` component.  The
Python tuple comparison `(now.hour, now.minute) < (hour, minute)` is the
inlined lexicographic test, and the two `monday` computations are inlined
into the branches. -/
def get_next_pub_time (cfg : PubConfig) (now : DateTime) : DateTime :=
  if now.day % 7 < cfg.weekday ∨
      (now.day % 7 = cfg.weekday ∧
        (now.hour < cfg.hour ∨ (now.hour = cfg.hour ∧ now.minute < cfg.minute))) then
    -- The pub has not yet happened: monday of the current week plus weekday
    ⟨now.day - now.day % 7 + cfg.weekday, cfg.hour, cfg.minute, 0⟩
  else
    -- The pub has already happened, look at next week
    ⟨now.day + (7 - now.day % 7) + cfg.weekday, cfg.hour, cfg.minute, 0⟩

/-- Source `PubCommand._get_next_event`: first scheduled event of the guild
whose name contains "Pub" and whose start time equals the computed next pub
time. -/
def get_next_event (cfg : PubConfig) (now : DateTime)
    (events : List ScheduledEvent) : Option ScheduledEvent :=
  events.find? (fun e => event_is_pub e && e.start_time == get_next_pub_time cfg now)

/-- The payload of `guild.create_scheduled_event` as issued by
`PubCommand._create_pub_event`. -/
structure CreatedEvent where
  name : String
  start_time : DateTime
  end_time : DateTime
  location : String
  description : String
  reason : String
deriving DecidableEq, Repr

/-- Source `PubCommand._create_pub_event`.  The Python keyword defaults
`user="A user"` and `title="Pub"` are passed explicitly by the embedding's
callers. -/
def create_pub_event (cfg : PubConfig) (pub : PubInfo) (start_time : DateTime)
    (user : String) (title : String) : CreatedEvent :=
  { name := pub.emoji ++ " " ++ title ++ " " ++ pub.emoji
    start_time := start_time
    end_time := start_time.addHours 3
    location := pub.name
    description := cfg.description
    reason := user ++ " used the /pub next command" }

/-- A link button of the reply view. -/
structure LinkButton where
  label : String
  url : String
deriving DecidableEq, Repr

/-- Source `PubCommand._get_pub_buttons_view`: a Map button, then a Menu
button when a menu URL is configured. -/
def get_pub_buttons_view (pub : PubInfo) : List LinkButton :=
  [⟨"Map", pub.map_url⟩] ++
    (match pub.menu_url with
     | some u => [⟨"Menu", u⟩]
     | none => [])

/-- Externally visible actions a command handler performs, in order.
`venuePrompt` is the ephemeral `interaction.response.send_message` carrying
the `PubView` selection widget (inside `_choose_pub`); `respond` is a plain
ephemeral interaction reply; `respondView` an ephemeral reply with link
buttons; `channelSend` a message to the configured pub channel;
`createEvent` a `guild.create_scheduled_event` call; `assertionFailed`
marks a failed `assert`, which kills the invocation. -/
inductive Act where
  | venuePrompt (content : String)
  | respond (content : String) (ephemeral : Bool)
  | respondView (content : String) (view : List LinkButton) (ephemeral : Bool)
  | channelSend (content : String) (view : List LinkButton)
  | createEvent (e : CreatedEvent)
  | assertionFailed
deriving DecidableEq, Repr

/-- Recognises scheduled-event creation actions. -/
def Act.isCreateEvent : Act → Bool
  | .createEvent _ => true
  | _ => false

/-- Recognises channel message sends. -/
def Act.isChannelSend : Act → Bool
  | .channelSend _ _ => true
  | _ => false

/-- Recognises the venue-selection prompt. -/
def Act.isVenuePrompt : Act → Bool
  | .venuePrompt _ => true
  | _ => false

/-- The guild state a handler reads: its scheduled events, and whether the
configured pub channel resolves to a text channel (the conjunction of
`get_channel` succeeding and the `isinstance(..., TextChannel)` check). -/
structure Guild where
  scheduled_events : List ScheduledEvent
  channel_is_text : Bool
deriving Repr

/-- Message body posted by `/pub next` for a real venue (the five lines
joined by newlines in the source). -/
def next_week_message (pub : PubInfo) (pub_time : DateTime) : String :=
  "**Pub Next Week**\n"
    ++ "The next pub will be <t:" ++ toString pub_time.toSeconds ++ ":R>\n"
    ++ "It will be held at " ++ pub.emoji ++ " **" ++ pub.name ++ "** "
    ++ pub.emoji ++ "\n\n"
    ++ "If you are coming, please mark 🔔 interest on the event!"

/-- Message body posted by `/pub now` for a real venue. -/
def right_now_message (pub : PubInfo) (pub_time : DateTime) : String :=
  "**Pub Right Now**\n"
    ++ "There is a pub right now: <t:" ++ toString pub_time.toSeconds ++ ":R>\n"
    ++ "It is being held at " ++ pub.emoji ++ " **" ++ pub.name ++ "** "
    ++ pub.emoji ++ "\n\n"
    ++ "If you are coming, please don't waste time marking 🔔 interest"
    ++ " on the event, just go immediately!"

/-- Source handler `PubCommand.info`.  `guild` is `interaction.guild`
(`none` when invoked outside a server, failing the assert before any
reply). -/
def pub_info (cfg : PubConfig) (guild : Option Guild) (now : DateTime) :
    List Act :=
  match guild with
  | none => [.assertionFailed]
  | some g =>
    match get_next_event cfg now g.scheduled_events with
    | none => [.respond "There is no pub scheduled" true]
    | some ev =>
      match cfg.pubs.find? (fun p => p.name == ev.location) with
      | none => [.respond ("No information about " ++ ev.location) true]
      | some pub =>
        [.respondView (next_week_message pub ev.start_time)
          (get_pub_buttons_view pub) true]

/-- Source handler `PubCommand.next`.  `choice` is the outcome of awaiting
the `PubView` widget in `_choose_pub`: `none` models a timeout or an
invalidated interaction, which raises and aborts the handler right after the
prompt was sent. -/
def pub_next (cfg : PubConfig) (guild : Option Guild) (now : DateTime)
    (choice : Option PubInfo) (user : String) : List Act :=
  match guild with
  | none => [.assertionFailed]
  | some g =>
    if (get_next_event cfg now g.scheduled_events).isSome then
      [.respond "A pub event already exists." true]
    else
      .venuePrompt ("Please choose the pub for "
          ++ (get_next_pub_time cfg now).render) ::
        match choice with
        | none => []
        | some pub =>
          if g.channel_is_text then
            match pub.fake with
            | some fid =>
              [.channelSend ("Oi <@" ++ fid ++ ">, can we go to "
                  ++ pub.name ++ " next week?")
                (get_pub_buttons_view pub)]
            | none =>
              [.createEvent
                  (create_pub_event cfg pub (get_next_pub_time cfg now) user "Pub"),
                .channelSend (next_week_message pub (get_next_pub_time cfg now))
                  (get_pub_buttons_view pub)]
          else [.assertionFailed]

/-- Source handler `PubCommand.now`.  The venue prompt is sent (and the
choice awaited) before the guild assert runs; the start time is the sampled
`now` plus one second. -/
def pub_now (cfg : PubConfig) (guild : Option Guild) (now : DateTime)
    (choice : Option PubInfo) (user : String) : List Act :=
  .venuePrompt "Please choose the spontaneous pub" ::
    match choice with
    | none => []
    | some pub =>
      match guild with
      | none => [.assertionFailed]
      | some g =>
        if g.channel_is_text then
          match pub.fake with
          | some fid =>
            [.channelSend ("Oi <@" ++ fid ++ ">, can we go to " ++ pub.name ++ "?")
              (get_pub_buttons_view pub)]
          | none =>
            [.createEvent
                (create_pub_event cfg pub (now.addSeconds 1) user "Spontaneous Pub"),
              .channelSend (right_now_message pub (now.addSeconds 1))
                (get_pub_buttons_view pub)]
        else [.assertionFailed]

/-! ## Theorems about the next-pub-time calculation -/

/-- C1 (counterexample): with the configured slot Friday 19:00
(weekday 4, hour 19, minute 0) and `now` exactly Friday 19:00:00 of the
current week (day 4 of the epoch week), `_get_next_pub_time` does NOT return
the current week's slot (day 4); it returns the following week's Friday
(day 11).  The boundary is exclusive, contradicting the claim. -/
theorem boundary_counterexample :
    get_next_pub_time ⟨4, 19, 0, 0, "", []⟩ ⟨4, 19, 0, 0⟩ ≠ ⟨4, 19, 0, 0⟩ ∧
      get_next_pub_time ⟨4, 19, 0, 0, "", []⟩ ⟨4, 19, 0, 0⟩ = ⟨11, 19, 0, 0⟩ := by
  decide

/-- C1 (amended): when the current time is exactly the configured weekday,
hour and minute (now equals the target instant), `_get_next_pub_time` sends
the slot to the FOLLOWING week: the boundary is exclusive, and the result is
the current day plus 7 at the configured hour and minute. -/
theorem boundary_goes_to_next_week (cfg : PubConfig) (now : DateTime)
    (hw : now.day % 7 = cfg.weekday) (hh : now.hour = cfg.hour)
    (hm : now.minute = cfg.minute) (hs : now.second = 0) :
    get_next_pub_time cfg now = ⟨now.day + 7, cfg.hour, cfg.minute, 0⟩ := by
  unfold get_next_pub_time
  rw [if_neg (by omega)]
  simp only [DateTime.mk.injEq, and_true]
  omega

/-- Witness for `boundary_goes_to_next_week` at the concrete boundary input
Friday 19:00 with slot Friday 19:00. -/
theorem boundary_goes_to_next_week_witness :
    get_next_pub_time ⟨4, 19, 0, 0, "", []⟩ ⟨4, 19, 0, 0⟩ = ⟨11, 19, 0, 0⟩ :=
  boundary_goes_to_next_week ⟨4, 19, 0, 0, "", []⟩ ⟨4, 19, 0, 0⟩
    (by decide) (by decide) (by decide) (by decide)

/-- C2: for every current time strictly before the configured
weekday/hour/minute within the same week (earlier weekday, or same weekday
with earlier (hour, minute)), `_get_next_pub_time` returns the current
week's slot: Monday of the current week (`today - today.weekday()`) plus the
configured weekday in days, at the configured hour and minute. -/
theorem before_target_same_week (cfg : PubConfig) (now : DateTime)
    (h : now.day % 7 < cfg.weekday ∨
      (now.day % 7 = cfg.weekday ∧
        (now.hour < cfg.hour ∨ (now.hour = cfg.hour ∧ now.minute < cfg.minute)))) :
    get_next_pub_time cfg now =
      ⟨now.day - now.day % 7 + cfg.weekday, cfg.hour, cfg.minute, 0⟩ := by
  unfold get_next_pub_time
  rw [if_pos h]

/-- Witness for `before_target_same_week`: slot Friday 19:00, now Monday
10:00 of the same week, result that week's Friday 19:00 (day 4). -/
theorem before_target_same_week_witness :
    get_next_pub_time ⟨4, 19, 0, 0, "", []⟩ ⟨0, 10, 0, 0⟩ = ⟨4, 19, 0, 0⟩ :=
  before_target_same_week ⟨4, 19, 0, 0, "", []⟩ ⟨0, 10, 0, 0⟩ (by decide)

/-- C3: for every current time strictly after the configured
weekday/hour/minute in the week (later weekday, or same weekday with a
strictly later time of day), `_get_next_pub_time` returns the following
week's slot — today plus `7 - today.weekday()` days (next Monday) plus the
configured weekday in days — which is exactly 7 days after the current
week's slot date. -/
theorem after_target_next_week (cfg : PubConfig) (now : DateTime)
    (h : cfg.weekday < now.day % 7 ∨
      (now.day % 7 = cfg.weekday ∧
        (cfg.hour < now.hour ∨ (now.hour = cfg.hour ∧
          (cfg.minute < now.minute ∨ (now.minute = cfg.minute ∧ 0 < now.second)))))) :
    get_next_pub_time cfg now =
      ⟨now.day + (7 - now.day % 7) + cfg.weekday, cfg.hour, cfg.minute, 0⟩ ∧
    now.day + (7 - now.day % 7) + cfg.weekday
      = (now.day - now.day % 7 + cfg.weekday) + 7 := by
  constructor
  · unfold get_next_pub_time
    rw [if_neg (by omega)]
  · omega

/-- Witness for `after_target_next_week`: slot Friday 19:00, now Friday
20:00 (past the target the same day), result the following Friday (day 11),
7 days after the current week's Friday (day 4). -/
theorem after_target_next_week_witness :
    get_next_pub_time ⟨4, 19, 0, 0, "", []⟩ ⟨4, 20, 0, 0⟩ = ⟨11, 19, 0, 0⟩ ∧
      (11 : Nat) = 4 + 7 :=
  after_target_next_week ⟨4, 19, 0, 0, "", []⟩ ⟨4, 20, 0, 0⟩ (by decide)

/-- C9: for every valid current time (hour, minute and second in range),
`_get_next_pub_time` returns an instant strictly later than now: the
time-of-day comparison on (hour, minute) is strict, so the exact-boundary
case is sent to the following week and the result is never at or before
now. -/
theorem next_pub_time_strictly_future (cfg : PubConfig) (now : DateTime)
    (hh : now.hour < 24) (hm : now.minute < 60) (hs : now.second < 60) :
    now.toSeconds < (get_next_pub_time cfg now).toSeconds := by
  unfold get_next_pub_time
  split
  · rename_i h
    simp only [DateTime.toSeconds]
    omega
  · rename_i h
    simp only [DateTime.toSeconds]
    omega

/-- Witness for `next_pub_time_strictly_future` at now = Monday 10:00 with
slot Friday 19:00. -/
theorem next_pub_time_strictly_future_witness :
    DateTime.toSeconds ⟨0, 10, 0, 0⟩
      < (get_next_pub_time ⟨4, 19, 0, 0, "", []⟩ ⟨0, 10, 0, 0⟩).toSeconds :=
  next_pub_time_strictly_future ⟨4, 19, 0, 0, "", []⟩ ⟨0, 10, 0, 0⟩
    (by decide) (by decide) (by decide)

/-! ## Theorems about the event lookup -/

/-- A list `find?` returns `none` exactly when no element satisfies the
predicate. -/
theorem find?_none_iff {α : Type} (p : α → Bool) (l : List α) :
    l.find? p = none ↔ ∀ x ∈ l, p x = false := by
  induction l with
  | nil => simp [List.find?]
  | cons x xs ih =>
    cases hx : p x with
    | true => simp [List.find?, hx]
    | false => simp [List.find?, hx, ih]

/-- A successful list `find?` yields the first satisfying element: everything
before it in the list fails the predicate. -/
theorem find?_some_split {α : Type} (p : α → Bool) :
    ∀ (l : List α) (a : α), l.find? p = some a →
      p a = true ∧ ∃ l1 l2, l = l1 ++ a :: l2 ∧ ∀ x ∈ l1, p x = false := by
  intro l
  induction l with
  | nil => intro a h; simp [List.find?] at h
  | cons x xs ih =>
    intro a h
    cases hx : p x with
    | true =>
      rw [List.find?, hx] at h
      cases h
      exact ⟨hx, [], xs, rfl, by simp⟩
    | false =>
      rw [List.find?, hx] at h
      obtain ⟨hp, l1, l2, heq, hall⟩ := ih a h
      refine ⟨hp, x :: l1, l2, by rw [heq]; rfl, ?_⟩
      intro y hy
      rw [List.mem_cons] at hy
      rcases hy with rfl | hy
      · exact hx
      · exact hall y hy

/-- The event-lookup predicate is false exactly when the event fails the
name-contains-Pub test or the start-time equality. -/
theorem match_false_iff (pt : DateTime) (e : ScheduledEvent) :
    (event_is_pub e && e.start_time == pt) = false ↔
      ¬(event_is_pub e = true ∧ e.start_time = pt) := by
  cases h1 : event_is_pub e <;> by_cases h2 : e.start_time = pt <;> simp [h1, h2]

/-- C4: `_get_next_event` returns `none` exactly when no event in the guild
list has a name containing "Pub" together with a start time equal to the
computed next-pub time, and when it returns an event, that event satisfies
both conditions and is the first such event in iteration order (every
earlier event fails the combined condition). -/
theorem next_event_first_match (cfg : PubConfig) (now : DateTime)
    (events : List ScheduledEvent) :
    (get_next_event cfg now events = none ↔
      ∀ e ∈ events,
        ¬(event_is_pub e = true ∧ e.start_time = get_next_pub_time cfg now)) ∧
    ∀ ev, get_next_event cfg now events = some ev →
      (event_is_pub ev = true ∧ ev.start_time = get_next_pub_time cfg now) ∧
      ∃ l1 l2, events = l1 ++ ev :: l2 ∧
        ∀ e ∈ l1,
          ¬(event_is_pub e = true ∧ e.start_time = get_next_pub_time cfg now) := by
  constructor
  · rw [get_next_event, find?_none_iff]
    exact ⟨fun h e he => (match_false_iff _ e).mp (h e he),
      fun h e he => (match_false_iff _ e).mpr (h e he)⟩
  · intro ev h
    obtain ⟨hp, l1, l2, heq, hall⟩ := find?_some_split _ events ev h
    refine ⟨?_, l1, l2, heq, fun e he => (match_false_iff _ e).mp (hall e he)⟩
    simpa [Bool.and_eq_true, beq_iff_eq] using hp

/-- Witness for `next_event_first_match`: in a two-event list whose first
event is not a pub event, the lookup returns the second event, which matches
both conditions, with the first event in the failing head segment. -/
theorem next_event_first_match_witness :
    (event_is_pub ⟨"🍺 Pub 🍺", ⟨7, 0, 0, 0⟩, "The Moon"⟩ = true ∧
      (⟨"🍺 Pub 🍺", ⟨7, 0, 0, 0⟩, "The Moon"⟩ : ScheduledEvent).start_time
        = get_next_pub_time ⟨0, 0, 0, 0, "", []⟩ ⟨0, 0, 0, 0⟩) ∧
    ∃ l1 l2,
      [(⟨"Quiz Night", ⟨7, 0, 0, 0⟩, "Somewhere"⟩ : ScheduledEvent),
        ⟨"🍺 Pub 🍺", ⟨7, 0, 0, 0⟩, "The Moon"⟩]
        = l1 ++ (⟨"🍺 Pub 🍺", ⟨7, 0, 0, 0⟩, "The Moon"⟩ : ScheduledEvent) :: l2 ∧
      ∀ e ∈ l1,
        ¬(event_is_pub e = true ∧
          e.start_time = get_next_pub_time ⟨0, 0, 0, 0, "", []⟩ ⟨0, 0, 0, 0⟩) :=
  (next_event_first_match ⟨0, 0, 0, 0, "", []⟩ ⟨0, 0, 0, 0⟩
      [⟨"Quiz Night", ⟨7, 0, 0, 0⟩, "Somewhere"⟩,
        ⟨"🍺 Pub 🍺", ⟨7, 0, 0, 0⟩, "The Moon"⟩]).2
    ⟨"🍺 Pub 🍺", ⟨7, 0, 0, 0⟩, "The Moon"⟩ (by decide)

/-! ## Theorems about the command handlers -/

/-- C8: for every non-fake venue and start time, the scheduled-event payload
built by `_create_pub_event` has a name that is the title surrounded by the
venue's emoji on both sides, an end time exactly 3 hours (10800 seconds)
after the start time, location equal to the venue name, and description
equal to the configured description. -/
theorem created_event_fields (cfg : PubConfig) (pub : PubInfo)
    (st : DateTime) (user title : String) (hfake : pub.fake = none) :
    (create_pub_event cfg pub st user title).name
        = pub.emoji ++ " " ++ title ++ " " ++ pub.emoji ∧
    (create_pub_event cfg pub st user title).end_time.toSeconds
        = st.toSeconds + 3 * 60 * 60 ∧
    (create_pub_event cfg pub st user title).location = pub.name ∧
    (create_pub_event cfg pub st user title).description = cfg.description := by
  refine ⟨rfl, ?_, rfl, rfl⟩
  simp only [create_pub_event, DateTime.addHours, DateTime.toSeconds]
  omega

/-- Witness for `created_event_fields` at a concrete venue and start time. -/
theorem created_event_fields_witness :
    (create_pub_event ⟨4, 19, 0, 0, "Drinks!", []⟩
        ⟨"The Moon", "🌑", "http://map", none, none⟩ ⟨4, 19, 0, 0⟩ "alice" "Pub").name
        = "🌑" ++ " " ++ "Pub" ++ " " ++ "🌑" ∧
    (create_pub_event ⟨4, 19, 0, 0, "Drinks!", []⟩
        ⟨"The Moon", "🌑", "http://map", none, none⟩ ⟨4, 19, 0, 0⟩ "alice" "Pub").end_time.toSeconds
        = DateTime.toSeconds ⟨4, 19, 0, 0⟩ + 3 * 60 * 60 ∧
    (create_pub_event ⟨4, 19, 0, 0, "Drinks!", []⟩
        ⟨"The Moon", "🌑", "http://map", none, none⟩ ⟨4, 19, 0, 0⟩ "alice" "Pub").location
        = "The Moon" ∧
    (create_pub_event ⟨4, 19, 0, 0, "Drinks!", []⟩
        ⟨"The Moon", "🌑", "http://map", none, none⟩ ⟨4, 19, 0, 0⟩ "alice" "Pub").description
        = "Drinks!" :=
  created_event_fields ⟨4, 19, 0, 0, "Drinks!", []⟩
    ⟨"The Moon", "🌑", "http://map", none, none⟩ ⟨4, 19, 0, 0⟩ "alice" "Pub" rfl

/-- C6: when `/pub next` is invoked and a matching event already exists, the
handler's entire action trace is the single ephemeral "already exists"
reply: no venue prompt is shown, no channel message is sent, and no event is
created, whatever the (never consulted) venue choice would have been. -/
theorem next_already_exists (cfg : PubConfig) (g : Guild) (now : DateTime)
    (choice : Option PubInfo) (user : String) (ev : ScheduledEvent)
    (h : get_next_event cfg now g.scheduled_events = some ev) :
    pub_next cfg (some g) now choice user
        = [.respond "A pub event already exists." true] ∧
    (pub_next cfg (some g) now choice user).filter Act.isVenuePrompt = [] ∧
    (pub_next cfg (some g) now choice user).filter Act.isChannelSend = [] ∧
    (pub_next cfg (some g) now choice user).filter Act.isCreateEvent = [] := by
  have h1 : pub_next cfg (some g) now choice user
      = [.respond "A pub event already exists." true] := by
    simp [pub_next, h]
  refine ⟨h1, ?_, ?_, ?_⟩ <;> rw [h1] <;> rfl

/-- Witness for `next_already_exists`: a guild already holding a matching
pub event for the computed slot. -/
theorem next_already_exists_witness :
    pub_next ⟨0, 0, 0, 0, "", []⟩ (some ⟨[⟨"Pub", ⟨7, 0, 0, 0⟩, "X"⟩], true⟩)
        ⟨0, 0, 0, 0⟩ none "alice"
        = [.respond "A pub event already exists." true] ∧
    (pub_next ⟨0, 0, 0, 0, "", []⟩ (some ⟨[⟨"Pub", ⟨7, 0, 0, 0⟩, "X"⟩], true⟩)
        ⟨0, 0, 0, 0⟩ none "alice").filter Act.isVenuePrompt = [] ∧
    (pub_next ⟨0, 0, 0, 0, "", []⟩ (some ⟨[⟨"Pub", ⟨7, 0, 0, 0⟩, "X"⟩], true⟩)
        ⟨0, 0, 0, 0⟩ none "alice").filter Act.isChannelSend = [] ∧
    (pub_next ⟨0, 0, 0, 0, "", []⟩ (some ⟨[⟨"Pub", ⟨7, 0, 0, 0⟩, "X"⟩], true⟩)
        ⟨0, 0, 0, 0⟩ none "alice").filter Act.isCreateEvent = [] :=
  next_already_exists ⟨0, 0, 0, 0, "", []⟩ ⟨[⟨"Pub", ⟨7, 0, 0, 0⟩, "X"⟩], true⟩
    ⟨0, 0, 0, 0⟩ none "alice" ⟨"Pub", ⟨7, 0, 0, 0⟩, "X"⟩ (by decide)

/-- C7: if the venue selection fails (widget timeout or invalidated
interaction, modelled as `choice = none`), both `/pub next` and `/pub now`
abort with no channel message sent and no scheduled event created. -/
theorem choose_failure_aborts (cfg : PubConfig) (guild : Option Guild)
    (now : DateTime) (user : String) :
    (pub_next cfg guild now none user).filter Act.isChannelSend = [] ∧
    (pub_next cfg guild now none user).filter Act.isCreateEvent = [] ∧
    (pub_now cfg guild now none user).filter Act.isChannelSend = [] ∧
    (pub_now cfg guild now none user).filter Act.isCreateEvent = [] := by
  rcases guild with _ | g
  · exact ⟨rfl, rfl, rfl, rfl⟩
  · refine ⟨?_, ?_, rfl, rfl⟩ <;>
      · simp only [pub_next]
        split <;> rfl

/-- C5: for a chosen venue whose fake-user identifier is set, neither
`/pub next` (with no pre-existing event and a text channel) nor `/pub now`
creates a scheduled event; each sends exactly one channel message, the one
mentioning that identifier and asking whether the group can go to the venue,
with the link-button view attached. -/
theorem fake_venue_no_event (cfg : PubConfig) (g : Guild) (now : DateTime)
    (pub : PubInfo) (user fid : String)
    (hfake : pub.fake = some fid)
    (hnoev : get_next_event cfg now g.scheduled_events = none)
    (hch : g.channel_is_text = true) :
    (pub_next cfg (some g) now (some pub) user).filter Act.isCreateEvent = [] ∧
    (pub_next cfg (some g) now (some pub) user).filter Act.isChannelSend
        = [.channelSend
            ("Oi <@" ++ fid ++ ">, can we go to " ++ pub.name ++ " next week?")
            (get_pub_buttons_view pub)] ∧
    (pub_now cfg (some g) now (some pub) user).filter Act.isCreateEvent = [] ∧
    (pub_now cfg (some g) now (some pub) user).filter Act.isChannelSend
        = [.channelSend ("Oi <@" ++ fid ++ ">, can we go to " ++ pub.name ++ "?")
            (get_pub_buttons_view pub)] := by
  have hnext : pub_next cfg (some g) now (some pub) user
      = [.venuePrompt ("Please choose the pub for "
            ++ (get_next_pub_time cfg now).render),
          .channelSend
            ("Oi <@" ++ fid ++ ">, can we go to " ++ pub.name ++ " next week?")
            (get_pub_buttons_view pub)] := by
    simp [pub_next, hnoev, hch, hfake]
  have hnow : pub_now cfg (some g) now (some pub) user
      = [.venuePrompt "Please choose the spontaneous pub",
          .channelSend ("Oi <@" ++ fid ++ ">, can we go to " ++ pub.name ++ "?")
            (get_pub_buttons_view pub)] := by
    simp [pub_now, hch, hfake]
  refine ⟨?_, ?_, ?_, ?_⟩ <;> first
    | (rw [hnext]; rfl)
    | (rw [hnow]; rfl)

/-- Witness for `fake_venue_no_event` at a concrete fake venue. -/
theorem fake_venue_no_event_witness :
    (pub_next ⟨0, 0, 0, 0, "", []⟩ (some ⟨[], true⟩) ⟨0, 0, 0, 0⟩
        (some ⟨"The Fake Arms", "🍺", "http://map", none, some "123"⟩)
        "alice").filter Act.isCreateEvent = [] ∧
    (pub_next ⟨0, 0, 0, 0, "", []⟩ (some ⟨[], true⟩) ⟨0, 0, 0, 0⟩
        (some ⟨"The Fake Arms", "🍺", "http://map", none, some "123"⟩)
        "alice").filter Act.isChannelSend
        = [.channelSend
            ("Oi <@" ++ "123" ++ ">, can we go to " ++ "The Fake Arms" ++ " next week?")
            (get_pub_buttons_view ⟨"The Fake Arms", "🍺", "http://map", none, some "123"⟩)] ∧
    (pub_now ⟨0, 0, 0, 0, "", []⟩ (some ⟨[], true⟩) ⟨0, 0, 0, 0⟩
        (some ⟨"The Fake Arms", "🍺", "http://map", none, some "123"⟩)
        "alice").filter Act.isCreateEvent = [] ∧
    (pub_now ⟨0, 0, 0, 0, "", []⟩ (some ⟨[], true⟩) ⟨0, 0, 0, 0⟩
        (some ⟨"The Fake Arms", "🍺", "http://map", none, some "123"⟩)
        "alice").filter Act.isChannelSend
        = [.channelSend ("Oi <@" ++ "123" ++ ">, can we go to " ++ "The Fake Arms" ++ "?")
            (get_pub_buttons_view ⟨"The Fake Arms", "🍺", "http://map", none, some "123"⟩)] :=
  fake_venue_no_event ⟨0, 0, 0, 0, "", []⟩ ⟨[], true⟩ ⟨0, 0, 0, 0⟩
    ⟨"The Fake Arms", "🍺", "http://map", none, some "123"⟩ "alice" "123"
    rfl (by decide) rfl

/-- C10: invoked without a guild, `info` and `next` stop at the failed guild
assert before sending anything, while `now` first sends the venue-selection
prompt (and awaits the choice) and only then fails the guild assert. -/
theorem guild_assert_order (cfg : PubConfig) (now : DateTime)
    (choice : Option PubInfo) (pub : PubInfo) (user : String) :
    pub_info cfg none now = [.assertionFailed] ∧
    pub_next cfg none now choice user = [.assertionFailed] ∧
    pub_now cfg none now (some pub) user
        = [.venuePrompt "Please choose the spontaneous pub", .assertionFailed] :=
  ⟨rfl, rfl, rfl⟩
